import Mathlib

/-!
# Verification of the edx-name-affirmation reconciliation logic

A shallow embedding of `edx_name_affirmation/tasks.py` (the IDV and
proctoring celery task bodies) together with the parts of the
reconciliation API (`api.py`, not present in the sources; modelled from
the specification) that the claims refer to.

The VerifiedName store is modelled as a `List VerifiedName` kept in
creation order (oldest first).  Django's `order_by('-created').first()`
therefore corresponds to taking the last matching element of the list,
and `objects.create(...)` corresponds to appending a record carrying a
fresh primary key.  Log output that carries semantic weight in the spec
(the anomaly / warning / error flags) is modelled as boolean fields of
the task results; plain informational logging is dropped.
-/

namespace NameAffirmation

/-- Status of a verified name, from `edx_name_affirmation/statuses.py`
(`VerifiedNameStatus`): the closed set PENDING / SUBMITTED / APPROVED /
DENIED. -/
inductive VerifiedNameStatus
  | pending
  | submitted
  | approved
  | denied
deriving DecidableEq

/-- A row of the VerifiedName table (`edx_name_affirmation/models.py`,
as described by the spec and used by `tasks.py`).  The `created`
timestamp is represented by the position of the record in the store
list, which is kept in creation order. -/
structure VerifiedName where
  id : Nat
  user_id : Nat
  verified_name : String
  profile_name : String
  verification_attempt_id : Option Nat
  proctored_exam_attempt_id : Option Nat
  status : VerifiedNameStatus
deriving DecidableEq

/-- The fresh primary key handed out by `objects.create`: one larger
than every key already present in the store. -/
def nextId (db : List VerifiedName) : Nat :=
  db.foldr (fun r m => max (r.id + 1) m) 0

/-- `db.filter(p).order_by('-created').first()` for a store listed in
creation order: the last element of the list satisfying `p`, if any. -/
def mostRecent (p : VerifiedName → Bool) : List VerifiedName → Option VerifiedName
  | [] => none
  | r :: rest =>
    match mostRecent p rest with
    | some x => some x
    | none => if p r then some r else none

/-- The filter of the IDV task's initial query:
`VerifiedName.objects.filter(user__id=user_id, verified_name=photo_id_name)`. -/
def idvNameMatch (user_id : Nat) (photo_id_name : String) (r : VerifiedName) : Bool :=
  decide (r.user_id = user_id ∧ r.verified_name = photo_id_name)

/-- The filter of the proctoring task's first query:
`filter(user__id=user_id, status=VerifiedNameStatus.APPROVED)`. -/
def approvedMatch (user_id : Nat) (r : VerifiedName) : Bool :=
  decide (r.user_id = user_id ∧ r.status = VerifiedNameStatus.approved)

/-- The filter of the proctoring task's second query:
`filter(user__id=user_id, proctored_exam_attempt_id=attempt_id)`. -/
def proctoredAttemptMatch (user_id attempt_id : Nat) (r : VerifiedName) : Bool :=
  decide (r.user_id = user_id ∧ r.proctored_exam_attempt_id = some attempt_id)

/-- The per-user filter used by the reconciliation API:
`filter(user=user)`. -/
def userMatch (user_id : Nat) (r : VerifiedName) : Bool :=
  decide (r.user_id = user_id)

/-- The per-record effect of the IDV task's bulk update
`filter(proctored_exam_attempt_id=None, verification_attempt_id=None)
.update(verification_attempt_id=attempt_id)`, applied to the whole store:
a record is touched exactly when it matches the queryset. -/
def idvAttach (user_id : Nat) (photo_id_name : String) (attempt_id : Nat)
    (r : VerifiedName) : VerifiedName :=
  if r.user_id = user_id ∧ r.verified_name = photo_id_name ∧
      r.proctored_exam_attempt_id = none ∧ r.verification_attempt_id = none then
    { r with verification_attempt_id := some attempt_id }
  else r

/-- The per-record effect of the IDV task's status loop over
`filter(verification_attempt_id=attempt_id, proctored_exam_attempt_id=None)`:
each matching record has its status saved individually. -/
def idvSetStatus (user_id : Nat) (photo_id_name : String) (attempt_id : Nat)
    (s : VerifiedNameStatus) (r : VerifiedName) : VerifiedName :=
  if r.user_id = user_id ∧ r.verified_name = photo_id_name ∧
      r.verification_attempt_id = some attempt_id ∧
      r.proctored_exam_attempt_id = none then
    { r with status := s }
  else r

/-- A `verified_name_obj.save()` writing a new status, modelled as a write
by primary key over the store. -/
def setStatusById (targetId : Nat) (s : VerifiedNameStatus) (x : VerifiedName) :
    VerifiedName :=
  if x.id = targetId then { x with status := s } else x

/-- A save writing a new `verification_attempt_id`, modelled as a write by
primary key over the store. -/
def setVerificationAttemptIdById (targetId attempt_id : Nat) (x : VerifiedName) :
    VerifiedName :=
  if x.id = targetId then { x with verification_attempt_id := some attempt_id } else x

/-- Result of `idv_update_verified_name_task`: the updated store, and
whether the task logged the created-without-prior-record anomaly
(the `log.error` call in the creation branch). -/
structure IdvResult where
  db : List VerifiedName
  anomalyFlagged : Bool
deriving DecidableEq

/-- `idv_update_verified_name_task` from `edx_name_affirmation/tasks.py`.

The task filters the user's records on `verified_name == photo_id_name`.
If any exist it first bulk-updates `verification_attempt_id` on those
with neither attempt id set, then re-queries for records carrying this
`verification_attempt_id` (and no proctored id) and saves the new status
on each; Django querysets are lazy, so the second filter runs against
the already-updated store.  If none exist it creates a new record and
logs an error (the anomaly flag here). -/
def idv_update_verified_name_task (db : List VerifiedName) (attempt_id user_id : Nat)
    (name_affirmation_status : VerifiedNameStatus) (photo_id_name full_name : String) :
    IdvResult :=
  let verified_names := db.filter (idvNameMatch user_id photo_id_name)
  if verified_names ≠ [] then
    let db1 := db.map (idvAttach user_id photo_id_name attempt_id)
    let db2 := db1.map (idvSetStatus user_id photo_id_name attempt_id name_affirmation_status)
    { db := db2, anomalyFlagged := false }
  else
    { db := db ++ [{ id := nextId db, user_id := user_id,
                     verified_name := photo_id_name, profile_name := full_name,
                     verification_attempt_id := some attempt_id,
                     proctored_exam_attempt_id := none,
                     status := name_affirmation_status }],
      anomalyFlagged := true }

/-- Result of `proctoring_update_verified_name_task`: the updated store,
whether the name-change-after-approval warning was logged
(`log.warning`), and whether the cannot-create-without-names error was
logged (`log.error`). -/
structure ProctoringResult where
  db : List VerifiedName
  nameMismatchWarning : Bool
  missingNameError : Bool
deriving DecidableEq

/-- `proctoring_update_verified_name_task` from
`edx_name_affirmation/tasks.py`.

First it looks for the user's most recent APPROVED record; if one
exists it returns without touching the store, warning when the event's
`full_name` differs from that record's `verified_name`.  Otherwise it
looks for the user's most recent record carrying this
`proctored_exam_attempt_id` and, if found, saves the new status on it.
Otherwise, when both names are non-empty (Python truthiness of the
strings) it creates a new record, else it logs an error and does
nothing. -/
def proctoring_update_verified_name_task (db : List VerifiedName) (attempt_id user_id : Nat)
    (name_affirmation_status : VerifiedNameStatus) (full_name profile_name : String) :
    ProctoringResult :=
  match mostRecent (approvedMatch user_id) db with
  | some verified_name =>
    { db := db,
      nameMismatchWarning := decide (¬ verified_name.verified_name = full_name),
      missingNameError := false }
  | none =>
    match mostRecent (proctoredAttemptMatch user_id attempt_id) db with
    | some verified_name =>
      { db := db.map (setStatusById verified_name.id name_affirmation_status),
        nameMismatchWarning := false, missingNameError := false }
    | none =>
      if ¬ full_name = "" ∧ ¬ profile_name = "" then
        { db := db ++ [{ id := nextId db, user_id := user_id,
                         verified_name := full_name, profile_name := profile_name,
                         verification_attempt_id := none,
                         proctored_exam_attempt_id := some attempt_id,
                         status := name_affirmation_status }],
          nameMismatchWarning := false, missingNameError := false }
      else
        { db := db, nameMismatchWarning := false, missingNameError := true }

/-- Errors surfaced by the reconciliation API
(`edx_name_affirmation/exceptions.py`). -/
inductive NameAffirmationError
  | multipleAttemptIds
  | emptyString (field : String)
  | doesNotExist
  | attemptIdNotGiven
deriving DecidableEq

/-- Modelled from the spec: `create_verified_name` of
`edx_name_affirmation/api.py`, which is not among the sources (only its
tests are).  Per §4.1 it fails with `MultipleAttemptIds` if both
attempt ids are given, fails with `EmptyString` naming the empty field
if either name is empty, and otherwise inserts one new record. -/
def create_verified_name (db : List VerifiedName) (user_id : Nat)
    (verified_name profile_name : String)
    (verification_attempt_id proctored_exam_attempt_id : Option Nat)
    (status : VerifiedNameStatus) :
    Except NameAffirmationError (List VerifiedName) :=
  if verification_attempt_id.isSome ∧ proctored_exam_attempt_id.isSome then
    Except.error NameAffirmationError.multipleAttemptIds
  else if verified_name = "" then
    Except.error (NameAffirmationError.emptyString "verified_name")
  else if profile_name = "" then
    Except.error (NameAffirmationError.emptyString "profile_name")
  else
    Except.ok (db ++ [{ id := nextId db, user_id := user_id,
                        verified_name := verified_name, profile_name := profile_name,
                        verification_attempt_id := verification_attempt_id,
                        proctored_exam_attempt_id := proctored_exam_attempt_id,
                        status := status }])

/-- Modelled from the spec: `update_verification_attempt_id` of
`edx_name_affirmation/api.py`, which is not among the sources (only its
tests are).  Per §4.1 it finds the most recently created record for the
user (failing with `DoesNotExist` if there is none); if that record
already has either attempt id set it creates a new record copying
`verified_name`, `profile_name` and `status` with the new
`verification_attempt_id`; otherwise it sets `verification_attempt_id`
on the existing record in place. -/
def update_verification_attempt_id (db : List VerifiedName) (user_id attempt_id : Nat) :
    Except NameAffirmationError (List VerifiedName) :=
  match mostRecent (userMatch user_id) db with
  | none => Except.error NameAffirmationError.doesNotExist
  | some r =>
    if r.verification_attempt_id.isSome ∨ r.proctored_exam_attempt_id.isSome then
      Except.ok (db ++ [{ id := nextId db, user_id := user_id,
                          verified_name := r.verified_name,
                          profile_name := r.profile_name,
                          verification_attempt_id := some attempt_id,
                          proctored_exam_attempt_id := none,
                          status := r.status }])
    else
      Except.ok (db.map (setVerificationAttemptIdById r.id attempt_id))

/-! ## Helper lemmas about the store model -/

theorem nextId_gt (db : List VerifiedName) (r : VerifiedName) (h : r ∈ db) :
    r.id < nextId db := by
  induction db with
  | nil => cases h
  | cons a t ih =>
    rcases List.mem_cons.mp h with h | h
    · subst h
      simp only [nextId, List.foldr_cons]
      omega
    · have := ih h
      simp only [nextId, List.foldr_cons] at *
      omega

theorem mostRecent_eq_none (p : VerifiedName → Bool) (l : List VerifiedName)
    (h : mostRecent p l = none) : ∀ r ∈ l, p r = false := by
  induction l with
  | nil => intro r hr; cases hr
  | cons a t ih =>
    intro r hr
    simp only [mostRecent] at h
    rcases hmr : mostRecent p t with _ | x
    · rw [hmr] at h
      simp only [] at h
      rcases List.mem_cons.mp hr with h' | h'
      · subst h'
        by_cases hp : p r = true
        · simp [hp] at h
        · simpa using hp
      · exact ih hmr r h'
    · rw [hmr] at h
      simp at h

theorem mostRecent_spec (p : VerifiedName → Bool) (l : List VerifiedName)
    (r : VerifiedName) (h : mostRecent p l = some r) :
    ∃ k, ∃ hk : k < l.length, l.get ⟨k, hk⟩ = r ∧ p r = true ∧
      ∀ j, (hj : j < l.length) → k < j → p (l.get ⟨j, hj⟩) = false := by
  induction l with
  | nil => simp [mostRecent] at h
  | cons a t ih =>
    simp only [mostRecent] at h
    rcases hmr : mostRecent p t with _ | x
    · rw [hmr] at h
      by_cases hp : p a = true
      · simp only [hp, if_true] at h
        obtain rfl : a = r := by simpa using h
        refine ⟨0, by simp, rfl, hp, ?_⟩
        intro j hj hj0
        rcases j with _ | j
        · omega
        · have hj' : j < t.length := by simpa using hj
          exact mostRecent_eq_none p t hmr _ (List.get_mem t j hj')
      · simp only [hp] at h
        simp at h
    · rw [hmr] at h
      obtain rfl : x = r := by simpa using h
      obtain ⟨k, hk, hget, hpr, hafter⟩ := ih hmr
      refine ⟨k + 1, by simpa using Nat.succ_lt_succ hk, by simpa using hget, hpr, ?_⟩
      intro j hj hkj
      rcases j with _ | j
      · omega
      · exact hafter j (by simpa using hj) (by omega)

theorem mostRecent_isSome (p : VerifiedName → Bool) (l : List VerifiedName)
    (r : VerifiedName) (hr : r ∈ l) (hp : p r = true) :
    ∃ x, mostRecent p l = some x := by
  rcases h : mostRecent p l with _ | x
  · exact absurd hp (by simp [mostRecent_eq_none p l h r hr])
  · exact ⟨x, rfl⟩

theorem mostRecent_eq_none_iff (p : VerifiedName → Bool) (l : List VerifiedName) :
    mostRecent p l = none ↔ ∀ r ∈ l, p r = false := by
  constructor
  · exact mostRecent_eq_none p l
  · intro h
    induction l with
    | nil => rfl
    | cons a t ih =>
      have ht : mostRecent p t = none := ih (fun r hr => h r (List.mem_cons_of_mem a hr))
      have ha : p a = false := h a (List.mem_cons_self a t)
      simp [mostRecent, ht, ha]

theorem idv_nonempty_eq (db : List VerifiedName) (attempt_id user_id : Nat)
    (s : VerifiedNameStatus) (photo_id_name full_name : String)
    (hne : db.filter (idvNameMatch user_id photo_id_name) ≠ []) :
    idv_update_verified_name_task db attempt_id user_id s photo_id_name full_name =
      { db := (db.map (idvAttach user_id photo_id_name attempt_id)).map
                (idvSetStatus user_id photo_id_name attempt_id s),
        anomalyFlagged := false } := by
  simp only [idv_update_verified_name_task]
  rw [if_pos hne]

theorem idvStep_unlinked (user_id attempt_id : Nat) (photo_id_name : String)
    (s : VerifiedNameStatus) (r : VerifiedName)
    (hc : r.user_id = user_id ∧ r.verified_name = photo_id_name ∧
      r.verification_attempt_id = none ∧ r.proctored_exam_attempt_id = none) :
    idvSetStatus user_id photo_id_name attempt_id s
        (idvAttach user_id photo_id_name attempt_id r) =
      { r with verification_attempt_id := some attempt_id, status := s } := by
  obtain ⟨h1, h2, h3, h4⟩ := hc
  simp [idvAttach, idvSetStatus, h1, h2, h3, h4]

theorem idvStep_linked (user_id attempt_id : Nat) (photo_id_name : String)
    (s : VerifiedNameStatus) (r : VerifiedName)
    (hc : r.user_id = user_id ∧ r.verified_name = photo_id_name ∧
      r.verification_attempt_id = some attempt_id ∧
      r.proctored_exam_attempt_id = none) :
    idvSetStatus user_id photo_id_name attempt_id s
        (idvAttach user_id photo_id_name attempt_id r) =
      { r with status := s } := by
  obtain ⟨h1, h2, h3, h4⟩ := hc
  simp [idvAttach, idvSetStatus, h1, h2, h3, h4]

theorem idvStep_untouched (user_id attempt_id : Nat) (photo_id_name : String)
    (s : VerifiedNameStatus) (r : VerifiedName)
    (hc : ¬ (r.user_id = user_id ∧ r.verified_name = photo_id_name ∧
      r.proctored_exam_attempt_id = none ∧
      (r.verification_attempt_id = none ∨ r.verification_attempt_id = some attempt_id))) :
    idvSetStatus user_id photo_id_name attempt_id s
        (idvAttach user_id photo_id_name attempt_id r) = r := by
  by_cases h1 : r.user_id = user_id ∧ r.verified_name = photo_id_name ∧
      r.proctored_exam_attempt_id = none ∧ r.verification_attempt_id = none
  · exact absurd ⟨h1.1, h1.2.1, h1.2.2.1, Or.inl h1.2.2.2⟩ hc
  · rw [idvAttach, if_neg h1]
    by_cases h2 : r.user_id = user_id ∧ r.verified_name = photo_id_name ∧
        r.verification_attempt_id = some attempt_id ∧
        r.proctored_exam_attempt_id = none
    · exact absurd ⟨h2.1, h2.2.1, h2.2.2.2, Or.inr h2.2.2.1⟩ hc
    · rw [idvSetStatus, if_neg h2]

/-! ## Claim theorems -/

/-- Claim C1: for an IDV event where the user has at least one
VerifiedName record with `verified_name = photo_id_name`, the handler
first sets `verification_attempt_id = attempt_id` on every such record
that has neither attempt id set (so such a record also receives the new
status afterwards), then sets the status on every such record whose
`verification_attempt_id` equals `attempt_id` with no proctored id, and
creates no new record: the store keeps its length, every record outside
those two groups is untouched, and no anomaly is flagged. -/
theorem C1_idv_existing_updates (db : List VerifiedName) (attempt_id user_id : Nat)
    (s : VerifiedNameStatus) (photo_id_name full_name : String)
    (h : ∃ r ∈ db, r.user_id = user_id ∧ r.verified_name = photo_id_name) :
    (idv_update_verified_name_task db attempt_id user_id s photo_id_name
        full_name).db.length = db.length ∧
    (idv_update_verified_name_task db attempt_id user_id s photo_id_name
        full_name).anomalyFlagged = false ∧
    ∀ (i : Nat) (r : VerifiedName), db[i]? = some r →
      ((r.user_id = user_id ∧ r.verified_name = photo_id_name ∧
          r.verification_attempt_id = none ∧ r.proctored_exam_attempt_id = none →
        (idv_update_verified_name_task db attempt_id user_id s photo_id_name
            full_name).db[i]? =
          some { r with verification_attempt_id := some attempt_id, status := s }) ∧
       (r.user_id = user_id ∧ r.verified_name = photo_id_name ∧
          r.verification_attempt_id = some attempt_id ∧
          r.proctored_exam_attempt_id = none →
        (idv_update_verified_name_task db attempt_id user_id s photo_id_name
            full_name).db[i]? = some { r with status := s }) ∧
       (¬ (r.user_id = user_id ∧ r.verified_name = photo_id_name ∧
            r.proctored_exam_attempt_id = none ∧
            (r.verification_attempt_id = none ∨
              r.verification_attempt_id = some attempt_id)) →
        (idv_update_verified_name_task db attempt_id user_id s photo_id_name
            full_name).db[i]? = some r)) := by
  obtain ⟨w, hw, hwm⟩ := h
  have hne : db.filter (idvNameMatch user_id photo_id_name) ≠ [] := by
    intro hnil
    rw [List.filter_eq_nil_iff] at hnil
    exact hnil w hw (by simp [idvNameMatch, hwm.1, hwm.2])
  rw [idv_nonempty_eq db attempt_id user_id s photo_id_name full_name hne]
  refine ⟨by simp, rfl, ?_⟩
  intro i r hir
  have hout : ((db.map (idvAttach user_id photo_id_name attempt_id)).map
      (idvSetStatus user_id photo_id_name attempt_id s))[i]? =
      some (idvSetStatus user_id photo_id_name attempt_id s
        (idvAttach user_id photo_id_name attempt_id r)) := by
    rw [List.getElem?_map, List.getElem?_map, hir]
    rfl
  refine ⟨?_, ?_, ?_⟩
  · intro hc
    rw [hout, idvStep_unlinked user_id attempt_id photo_id_name s r hc]
  · intro hc
    rw [hout, idvStep_linked user_id attempt_id photo_id_name s r hc]
  · intro hc
    rw [hout, idvStep_untouched user_id attempt_id photo_id_name s r hc]

/-- Witness for C1: a store with one matching unlinked record plus one
record of another user; the matching record gets the attempt id and the
status, the other record is untouched, nothing is appended. -/
theorem C1_witness :
    (idv_update_verified_name_task
        [{ id := 0, user_id := 1, verified_name := "Jon Doe", profile_name := "Jonathan Doe",
           verification_attempt_id := none, proctored_exam_attempt_id := none,
           status := VerifiedNameStatus.pending },
         { id := 1, user_id := 2, verified_name := "Jon Doe", profile_name := "Other",
           verification_attempt_id := none, proctored_exam_attempt_id := none,
           status := VerifiedNameStatus.pending }] 9 1 VerifiedNameStatus.approved
        "Jon Doe" "Jonathan Doe").db[0]? =
      some { id := 0, user_id := 1, verified_name := "Jon Doe",
             profile_name := "Jonathan Doe",
             verification_attempt_id := some 9, proctored_exam_attempt_id := none,
             status := VerifiedNameStatus.approved } ∧
    (idv_update_verified_name_task
        [{ id := 0, user_id := 1, verified_name := "Jon Doe", profile_name := "Jonathan Doe",
           verification_attempt_id := none, proctored_exam_attempt_id := none,
           status := VerifiedNameStatus.pending },
         { id := 1, user_id := 2, verified_name := "Jon Doe", profile_name := "Other",
           verification_attempt_id := none, proctored_exam_attempt_id := none,
           status := VerifiedNameStatus.pending }] 9 1 VerifiedNameStatus.approved
        "Jon Doe" "Jonathan Doe").db.length = 2 := by
  have h := C1_idv_existing_updates
    [{ id := 0, user_id := 1, verified_name := "Jon Doe", profile_name := "Jonathan Doe",
       verification_attempt_id := none, proctored_exam_attempt_id := none,
       status := VerifiedNameStatus.pending },
     { id := 1, user_id := 2, verified_name := "Jon Doe", profile_name := "Other",
       verification_attempt_id := none, proctored_exam_attempt_id := none,
       status := VerifiedNameStatus.pending }] 9 1 VerifiedNameStatus.approved
    "Jon Doe" "Jonathan Doe"
    ⟨{ id := 0, user_id := 1, verified_name := "Jon Doe", profile_name := "Jonathan Doe",
       verification_attempt_id := none, proctored_exam_attempt_id := none,
       status := VerifiedNameStatus.pending }, by simp, by decide⟩
  exact ⟨(h.2.2 0 _ rfl).1 (by decide), h.1⟩

/-- Claim C5: for an IDV event where the user has no VerifiedName record
with `verified_name = photo_id_name`, the handler creates exactly one new
record with `verified_name = photo_id_name`, `profile_name = full_name`,
`verification_attempt_id = attempt_id`, the given status, no
`proctored_exam_attempt_id`, and flags the situation as an anomaly. -/
theorem C5_idv_no_match_creates (db : List VerifiedName) (attempt_id user_id : Nat)
    (s : VerifiedNameStatus) (photo_id_name full_name : String)
    (h : ∀ r ∈ db, ¬ (r.user_id = user_id ∧ r.verified_name = photo_id_name)) :
    idv_update_verified_name_task db attempt_id user_id s photo_id_name full_name =
      { db := db ++ [{ id := nextId db, user_id := user_id,
                       verified_name := photo_id_name, profile_name := full_name,
                       verification_attempt_id := some attempt_id,
                       proctored_exam_attempt_id := none, status := s }],
        anomalyFlagged := true } := by
  have hfil : db.filter (idvNameMatch user_id photo_id_name) = [] := by
    rw [List.filter_eq_nil_iff]
    intro a ha
    simpa [idvNameMatch] using h a ha
  simp [idv_update_verified_name_task, hfil]

/-- Witness for C5 on a concrete store holding one non-matching record. -/
theorem C5_witness :
    idv_update_verified_name_task
        [{ id := 0, user_id := 1, verified_name := "Other Name", profile_name := "Other",
           verification_attempt_id := none, proctored_exam_attempt_id := none,
           status := VerifiedNameStatus.pending }] 9 1 VerifiedNameStatus.submitted
        "Jon Doe" "Jonathan Doe" =
      { db := [{ id := 0, user_id := 1, verified_name := "Other Name", profile_name := "Other",
                 verification_attempt_id := none, proctored_exam_attempt_id := none,
                 status := VerifiedNameStatus.pending },
               { id := 1, user_id := 1, verified_name := "Jon Doe",
                 profile_name := "Jonathan Doe",
                 verification_attempt_id := some 9, proctored_exam_attempt_id := none,
                 status := VerifiedNameStatus.submitted }],
        anomalyFlagged := true } := by
  rw [C5_idv_no_match_creates _ _ _ _ _ _ (by decide)]
  rfl

/-- Claim C4: for a proctoring event where the user already has an
APPROVED record, the handler changes nothing — no record is created and
no record is modified — and at most a warning is emitted, exactly when
the event's `full_name` differs from the most recent approved record's
`verified_name`. -/
theorem C4_proctoring_approved_noop (db : List VerifiedName) (attempt_id user_id : Nat)
    (s : VerifiedNameStatus) (full_name profile_name : String)
    (h : ∃ r ∈ db, r.user_id = user_id ∧ r.status = VerifiedNameStatus.approved) :
    (proctoring_update_verified_name_task db attempt_id user_id s full_name profile_name).db
        = db ∧
    (proctoring_update_verified_name_task db attempt_id user_id s full_name
        profile_name).missingNameError = false ∧
    ∃ a, mostRecent (approvedMatch user_id) db = some a ∧
      (proctoring_update_verified_name_task db attempt_id user_id s full_name
          profile_name).nameMismatchWarning = decide (¬ a.verified_name = full_name) := by
  obtain ⟨r, hr, hmatch⟩ := h
  obtain ⟨a, ha⟩ := mostRecent_isSome (approvedMatch user_id) db r hr
    (by simpa [approvedMatch] using hmatch)
  refine ⟨?_, ?_, a, ha, ?_⟩ <;>
    simp [proctoring_update_verified_name_task, ha]

/-- Witness for C4: a store with one approved record under a different
name is left unchanged and the mismatch warning fires. -/
theorem C4_witness :
    (proctoring_update_verified_name_task
        [{ id := 3, user_id := 5, verified_name := "Approved Name", profile_name := "P",
           verification_attempt_id := some 1, proctored_exam_attempt_id := none,
           status := VerifiedNameStatus.approved }] 7 5 VerifiedNameStatus.denied
        "Different Name" "P").db =
      [{ id := 3, user_id := 5, verified_name := "Approved Name", profile_name := "P",
         verification_attempt_id := some 1, proctored_exam_attempt_id := none,
         status := VerifiedNameStatus.approved }] :=
  (C4_proctoring_approved_noop _ 7 5 VerifiedNameStatus.denied "Different Name" "P"
    ⟨_, List.mem_singleton_self _, by decide⟩).1

/-- Claim C7: for a proctoring event where the user has no APPROVED
record and no record for this `proctored_exam_attempt_id`: if both
`full_name` and `profile_name` are non-empty the handler creates exactly
one new record with `verified_name = full_name`,
`profile_name = profile_name`, `proctored_exam_attempt_id = attempt_id`
and the given status; otherwise it changes nothing and reports an error
condition. -/
theorem C7_proctoring_create_or_error (db : List VerifiedName) (attempt_id user_id : Nat)
    (s : VerifiedNameStatus) (full_name profile_name : String)
    (h1 : ∀ r ∈ db, ¬ (r.user_id = user_id ∧ r.status = VerifiedNameStatus.approved))
    (h2 : ∀ r ∈ db, ¬ (r.user_id = user_id ∧ r.proctored_exam_attempt_id = some attempt_id)) :
    (¬ full_name = "" ∧ ¬ profile_name = "" →
      proctoring_update_verified_name_task db attempt_id user_id s full_name profile_name =
        { db := db ++ [{ id := nextId db, user_id := user_id,
                         verified_name := full_name, profile_name := profile_name,
                         verification_attempt_id := none,
                         proctored_exam_attempt_id := some attempt_id, status := s }],
          nameMismatchWarning := false, missingNameError := false }) ∧
    (¬ (¬ full_name = "" ∧ ¬ profile_name = "") →
      proctoring_update_verified_name_task db attempt_id user_id s full_name profile_name =
        { db := db, nameMismatchWarning := false, missingNameError := true }) := by
  have hap : mostRecent (approvedMatch user_id) db = none :=
    (mostRecent_eq_none_iff _ db).mpr
      (fun r hr => by simpa [approvedMatch] using h1 r hr)
  have hpr : mostRecent (proctoredAttemptMatch user_id attempt_id) db = none :=
    (mostRecent_eq_none_iff _ db).mpr
      (fun r hr => by simpa [proctoredAttemptMatch] using h2 r hr)
  constructor
  · intro hnames
    simp [proctoring_update_verified_name_task, hap, hpr, hnames]
  · intro hnames
    simp [proctoring_update_verified_name_task, hap, hpr, hnames]

/-- Witness for C7 on the empty store: the creation branch appends one
record, and with an empty full name the store is untouched and the
error flag set. -/
theorem C7_witness :
    proctoring_update_verified_name_task [] 4 2 VerifiedNameStatus.pending "Full" "Prof" =
      { db := [{ id := 0, user_id := 2, verified_name := "Full", profile_name := "Prof",
                 verification_attempt_id := none, proctored_exam_attempt_id := some 4,
                 status := VerifiedNameStatus.pending }],
        nameMismatchWarning := false, missingNameError := false } ∧
    proctoring_update_verified_name_task [] 4 2 VerifiedNameStatus.pending "" "Prof" =
      { db := [], nameMismatchWarning := false, missingNameError := true } := by
  constructor
  · rw [(C7_proctoring_create_or_error [] 4 2 VerifiedNameStatus.pending "Full" "Prof"
      (by simp) (by simp)).1 (by decide)]
    rfl
  · rw [(C7_proctoring_create_or_error [] 4 2 VerifiedNameStatus.pending "" "Prof"
      (by simp) (by simp)).2 (by decide)]

theorem proctoring_status_update_spec (db : List VerifiedName) (attempt_id user_id : Nat)
    (s : VerifiedNameStatus) (full_name profile_name : String)
    (hwf : (db.map VerifiedName.id).Nodup)
    (h1 : ∀ r ∈ db, ¬ (r.user_id = user_id ∧ r.status = VerifiedNameStatus.approved))
    (h2 : ∃ r ∈ db, r.user_id = user_id ∧ r.proctored_exam_attempt_id = some attempt_id) :
    ∃ k, ∃ hk : k < db.length,
      (db.get ⟨k, hk⟩).user_id = user_id ∧
      (db.get ⟨k, hk⟩).proctored_exam_attempt_id = some attempt_id ∧
      (∀ j, (hj : j < db.length) → k < j →
        ¬ ((db.get ⟨j, hj⟩).user_id = user_id ∧
          (db.get ⟨j, hj⟩).proctored_exam_attempt_id = some attempt_id)) ∧
      (proctoring_update_verified_name_task db attempt_id user_id s full_name
          profile_name).db.length = db.length ∧
      (proctoring_update_verified_name_task db attempt_id user_id s full_name
          profile_name).db[k]? = some { db.get ⟨k, hk⟩ with status := s } ∧
      (∀ j, (hj : j < db.length) → j ≠ k →
        (proctoring_update_verified_name_task db attempt_id user_id s full_name
            profile_name).db[j]? = some (db.get ⟨j, hj⟩)) ∧
      (proctoring_update_verified_name_task db attempt_id user_id s full_name
          profile_name).missingNameError = false ∧
      (proctoring_update_verified_name_task db attempt_id user_id s full_name
          profile_name).nameMismatchWarning = false := by
  have hap : mostRecent (approvedMatch user_id) db = none :=
    (mostRecent_eq_none_iff _ db).mpr
      (fun r hr => by simpa [approvedMatch] using h1 r hr)
  obtain ⟨w, hw, hwm⟩ := h2
  obtain ⟨x, hx⟩ := mostRecent_isSome (proctoredAttemptMatch user_id attempt_id) db w hw
    (by simp [proctoredAttemptMatch, hwm.1, hwm.2])
  obtain ⟨k, hk, hget, hpx, hafter⟩ :=
    mostRecent_spec (proctoredAttemptMatch user_id attempt_id) db x hx
  rw [proctoredAttemptMatch, decide_eq_true_iff] at hpx
  have heq : proctoring_update_verified_name_task db attempt_id user_id s full_name
      profile_name =
      { db := db.map (setStatusById x.id s),
        nameMismatchWarning := false, missingNameError := false } := by
    simp only [proctoring_update_verified_name_task, hap, hx]
  have hid_ne : ∀ j, (hj : j < db.length) → j ≠ k →
      ¬ (db.get ⟨j, hj⟩).id = (db.get ⟨k, hk⟩).id := by
    intro j hj hjk hcon
    simp only [List.get_eq_getElem] at hcon
    have hj' : j < (db.map VerifiedName.id).length := by simpa using hj
    have hk' : k < (db.map VerifiedName.id).length := by simpa using hk
    have hmapeq : (db.map VerifiedName.id).get ⟨j, hj'⟩ =
        (db.map VerifiedName.id).get ⟨k, hk'⟩ := by
      simp only [List.get_eq_getElem, List.getElem_map]
      exact hcon
    exact hjk (by simpa using hwf.get_inj_iff.mp hmapeq)
  refine ⟨k, hk, by rw [hget]; exact hpx.1, by rw [hget]; exact hpx.2, ?_, ?_, ?_, ?_, ?_, ?_⟩
  · intro j hj hkj hcon
    have := hafter j hj hkj
    rw [proctoredAttemptMatch, decide_eq_false_iff_not] at this
    exact this hcon
  · rw [heq]
    simp
  · rw [heq]
    have : db[k]? = some (db.get ⟨k, hk⟩) := by
      simp [List.getElem?_eq_getElem hk]
    simp only [List.getElem?_map, this, Option.map_some]
    rw [hget]
    simp [setStatusById]
  · intro j hj hjk
    rw [heq]
    have hj0 : db[j]? = some (db.get ⟨j, hj⟩) := by
      simp [List.getElem?_eq_getElem hj]
    simp only [List.getElem?_map, hj0, Option.map_some]
    have hne2 := hid_ne j hj hjk
    rw [hget] at hne2
    simp only [List.get_eq_getElem] at hne2
    simp [setStatusById, hne2]
  · rw [heq]
  · rw [heq]

/-- Claim C6: for a proctoring event where the user has no APPROVED
record but does have a record whose `proctored_exam_attempt_id` equals
the event's `attempt_id`, the handler sets that record's status (the
most recently created one, at some position `k` of the store) to the
given status and creates no new record: the store keeps its length and
every other record is untouched. -/
theorem C6_proctoring_attempt_updates (db : List VerifiedName) (attempt_id user_id : Nat)
    (s : VerifiedNameStatus) (full_name profile_name : String)
    (hwf : (db.map VerifiedName.id).Nodup)
    (h1 : ∀ r ∈ db, ¬ (r.user_id = user_id ∧ r.status = VerifiedNameStatus.approved))
    (h2 : ∃ r ∈ db, r.user_id = user_id ∧ r.proctored_exam_attempt_id = some attempt_id) :
    (proctoring_update_verified_name_task db attempt_id user_id s full_name
        profile_name).db.length = db.length ∧
    ∃ k, ∃ hk : k < db.length,
      (db.get ⟨k, hk⟩).user_id = user_id ∧
      (db.get ⟨k, hk⟩).proctored_exam_attempt_id = some attempt_id ∧
      (proctoring_update_verified_name_task db attempt_id user_id s full_name
          profile_name).db[k]? = some { db.get ⟨k, hk⟩ with status := s } ∧
      ∀ j, (hj : j < db.length) → j ≠ k →
        (proctoring_update_verified_name_task db attempt_id user_id s full_name
            profile_name).db[j]? = some (db.get ⟨j, hj⟩) := by
  obtain ⟨k, hk, hu, hp, _, hlen, hupd, hrest, _, _⟩ :=
    proctoring_status_update_spec db attempt_id user_id s full_name profile_name hwf h1 h2
  exact ⟨hlen, k, hk, hu, hp, hupd, hrest⟩

/-- Witness for C6: a store with one matching record gets that record's
status updated in place. -/
theorem C6_witness :
    (proctoring_update_verified_name_task
        [{ id := 4, user_id := 3, verified_name := "Jon Doe", profile_name := "Jon",
           verification_attempt_id := none, proctored_exam_attempt_id := some 11,
           status := VerifiedNameStatus.pending }] 11 3 VerifiedNameStatus.approved
        "Jon Doe" "Jon").db.length = 1 ∧
    (proctoring_update_verified_name_task
        [{ id := 4, user_id := 3, verified_name := "Jon Doe", profile_name := "Jon",
           verification_attempt_id := none, proctored_exam_attempt_id := some 11,
           status := VerifiedNameStatus.pending }] 11 3 VerifiedNameStatus.approved
        "Jon Doe" "Jon").db[0]? =
      some { id := 4, user_id := 3, verified_name := "Jon Doe", profile_name := "Jon",
             verification_attempt_id := none, proctored_exam_attempt_id := some 11,
             status := VerifiedNameStatus.approved } := by
  obtain ⟨hlen, k, hk, _, _, hupd, _⟩ := C6_proctoring_attempt_updates
    [{ id := 4, user_id := 3, verified_name := "Jon Doe", profile_name := "Jon",
       verification_attempt_id := none, proctored_exam_attempt_id := some 11,
       status := VerifiedNameStatus.pending }] 11 3 VerifiedNameStatus.approved
    "Jon Doe" "Jon" (by simp)
    (by intro r hr; simp only [List.mem_singleton] at hr; subst hr; decide)
    ⟨_, List.mem_singleton_self _, by decide⟩
  refine ⟨hlen, ?_⟩
  have hk1 : k < 1 := by simpa using hk
  obtain rfl : k = 0 := by omega
  exact hupd

/-- Claim C10: for a proctoring event where the user has no APPROVED
record and more than one record carries the event's
`proctored_exam_attempt_id`, only the most recently created of those
records (the matching record at position `k` after which no record
matches) has its status updated; every record at any other position —
in particular every older record with the same attempt id — is left
unchanged, and the store keeps its length. -/
theorem C10_proctoring_only_most_recent (db : List VerifiedName) (attempt_id user_id : Nat)
    (s : VerifiedNameStatus) (full_name profile_name : String)
    (hwf : (db.map VerifiedName.id).Nodup)
    (h1 : ∀ r ∈ db, ¬ (r.user_id = user_id ∧ r.status = VerifiedNameStatus.approved))
    (hmulti : 1 < (db.filter (proctoredAttemptMatch user_id attempt_id)).length) :
    ∃ k, ∃ hk : k < db.length,
      (db.get ⟨k, hk⟩).user_id = user_id ∧
      (db.get ⟨k, hk⟩).proctored_exam_attempt_id = some attempt_id ∧
      (∀ j, (hj : j < db.length) → k < j →
        ¬ ((db.get ⟨j, hj⟩).user_id = user_id ∧
          (db.get ⟨j, hj⟩).proctored_exam_attempt_id = some attempt_id)) ∧
      (proctoring_update_verified_name_task db attempt_id user_id s full_name
          profile_name).db.length = db.length ∧
      (proctoring_update_verified_name_task db attempt_id user_id s full_name
          profile_name).db[k]? = some { db.get ⟨k, hk⟩ with status := s } ∧
      ∀ j, (hj : j < db.length) → j ≠ k →
        (proctoring_update_verified_name_task db attempt_id user_id s full_name
            profile_name).db[j]? = some (db.get ⟨j, hj⟩) := by
  have hne : db.filter (proctoredAttemptMatch user_id attempt_id) ≠ [] := by
    intro hnil
    rw [hnil] at hmulti
    simp at hmulti
  obtain ⟨w, hwmem⟩ := List.exists_mem_of_ne_nil _ hne
  have hw := List.mem_filter.mp hwmem
  have h2 : ∃ r ∈ db, r.user_id = user_id ∧
      r.proctored_exam_attempt_id = some attempt_id := by
    refine ⟨w, hw.1, ?_⟩
    have := hw.2
    rwa [proctoredAttemptMatch, decide_eq_true_iff] at this
  obtain ⟨k, hk, hu, hp, hafter, hlen, hupd, hrest, _, _⟩ :=
    proctoring_status_update_spec db attempt_id user_id s full_name profile_name hwf h1 h2
  exact ⟨k, hk, hu, hp, hafter, hlen, hupd, hrest⟩

/-- Witness for C10: two records of the same user with the same
proctored attempt id; only the later one (position 1) is updated, the
older keeps its status. -/
theorem C10_witness :
    (proctoring_update_verified_name_task
        [{ id := 0, user_id := 3, verified_name := "Jon Doe", profile_name := "Jon",
           verification_attempt_id := none, proctored_exam_attempt_id := some 11,
           status := VerifiedNameStatus.pending },
         { id := 1, user_id := 3, verified_name := "Jon Doe 2", profile_name := "Jon",
           verification_attempt_id := none, proctored_exam_attempt_id := some 11,
           status := VerifiedNameStatus.submitted }] 11 3 VerifiedNameStatus.denied
        "Jon Doe" "Jon").db[1]? =
      some { id := 1, user_id := 3, verified_name := "Jon Doe 2", profile_name := "Jon",
             verification_attempt_id := none, proctored_exam_attempt_id := some 11,
             status := VerifiedNameStatus.denied } ∧
    (proctoring_update_verified_name_task
        [{ id := 0, user_id := 3, verified_name := "Jon Doe", profile_name := "Jon",
           verification_attempt_id := none, proctored_exam_attempt_id := some 11,
           status := VerifiedNameStatus.pending },
         { id := 1, user_id := 3, verified_name := "Jon Doe 2", profile_name := "Jon",
           verification_attempt_id := none, proctored_exam_attempt_id := some 11,
           status := VerifiedNameStatus.submitted }] 11 3 VerifiedNameStatus.denied
        "Jon Doe" "Jon").db[0]? =
      some { id := 0, user_id := 3, verified_name := "Jon Doe", profile_name := "Jon",
             verification_attempt_id := none, proctored_exam_attempt_id := some 11,
             status := VerifiedNameStatus.pending } := by
  obtain ⟨k, hk, _, _, hafter, _, hupd, hrest⟩ := C10_proctoring_only_most_recent
    [{ id := 0, user_id := 3, verified_name := "Jon Doe", profile_name := "Jon",
       verification_attempt_id := none, proctored_exam_attempt_id := some 11,
       status := VerifiedNameStatus.pending },
     { id := 1, user_id := 3, verified_name := "Jon Doe 2", profile_name := "Jon",
       verification_attempt_id := none, proctored_exam_attempt_id := some 11,
       status := VerifiedNameStatus.submitted }] 11 3 VerifiedNameStatus.denied
    "Jon Doe" "Jon" (by simp)
    (by intro r hr; fin_cases hr <;> decide) (by decide)
  have hk2 : k < 2 := by simpa using hk
  have hk01 : k = 0 ∨ k = 1 := by omega
  have hk1 : k = 1 := by
    rcases hk01 with rfl | rfl
    · have hcon := hafter 1 (by simp) (by omega)
      exact absurd (by decide) hcon
    · rfl
  subst hk1
  exact ⟨hupd, hrest 0 (by omega) (by omega)⟩

/-- The mutual-exclusion invariant of §3: a record never has both
attempt-id fields set. -/
def attemptIdsExclusive (r : VerifiedName) : Prop :=
  r.verification_attempt_id = none ∨ r.proctored_exam_attempt_id = none

theorem idvAttach_exclusive (user_id attempt_id : Nat) (photo_id_name : String)
    (r : VerifiedName) (h : attemptIdsExclusive r) :
    attemptIdsExclusive (idvAttach user_id photo_id_name attempt_id r) := by
  rw [idvAttach]
  split_ifs with hc
  · exact Or.inr hc.2.2.1
  · exact h

theorem idvSetStatus_exclusive (user_id attempt_id : Nat) (photo_id_name : String)
    (s : VerifiedNameStatus) (r : VerifiedName) (h : attemptIdsExclusive r) :
    attemptIdsExclusive (idvSetStatus user_id photo_id_name attempt_id s r) := by
  rw [idvSetStatus]
  split_ifs with hc
  · exact h
  · exact h

theorem setStatusById_exclusive (targetId : Nat) (s : VerifiedNameStatus)
    (r : VerifiedName) (h : attemptIdsExclusive r) :
    attemptIdsExclusive (setStatusById targetId s r) := by
  rw [setStatusById]
  split_ifs with hc
  · exact h
  · exact h

/-- Claim C2: the mutual-exclusion invariant is preserved by every
operation.  Starting from a store whose records each have at most one
attempt id set (and distinct primary keys), every record of the store
after the IDV handler, after the proctoring handler, after a successful
`create_verified_name`, and after a successful
`update_verification_attempt_id` again has at most one attempt id set;
in particular the IDV handler attaches `verification_attempt_id` only
where both ids are unset, and the proctoring handler creates records
with only `proctored_exam_attempt_id`. -/
theorem C2_mutual_exclusion (db : List VerifiedName)
    (attempt_id user_id : Nat) (s : VerifiedNameStatus) (photo_id_name full_name : String)
    (pattempt_id puser_id : Nat) (ps : VerifiedNameStatus)
    (pfull_name pprofile_name : String)
    (cuser_id : Nat) (cverified_name cprofile_name : String)
    (cvid cpid : Option Nat) (cs : VerifiedNameStatus)
    (uuser_id uattempt_id : Nat)
    (hwf : (db.map VerifiedName.id).Nodup)
    (h : ∀ r ∈ db, attemptIdsExclusive r) :
    (∀ r ∈ (idv_update_verified_name_task db attempt_id user_id s photo_id_name
        full_name).db, attemptIdsExclusive r) ∧
    (∀ r ∈ (proctoring_update_verified_name_task db pattempt_id puser_id ps pfull_name
        pprofile_name).db, attemptIdsExclusive r) ∧
    (∀ db2, create_verified_name db cuser_id cverified_name cprofile_name cvid cpid cs =
        Except.ok db2 → ∀ r ∈ db2, attemptIdsExclusive r) ∧
    (∀ db2, update_verification_attempt_id db uuser_id uattempt_id = Except.ok db2 →
        ∀ r ∈ db2, attemptIdsExclusive r) := by
  refine ⟨?_, ?_, ?_, ?_⟩
  · intro r hr
    rw [idv_update_verified_name_task] at hr
    split_ifs at hr with hne
    · simp only [List.mem_map] at hr
      obtain ⟨y1, ⟨y, hy, rfl⟩, rfl⟩ := hr
      exact idvSetStatus_exclusive _ _ _ _ _
        (idvAttach_exclusive _ _ _ _ (h y hy))
    · rcases List.mem_append.mp hr with hr | hr
      · exact h r hr
      · obtain rfl : r = _ := List.mem_singleton.mp hr
        exact Or.inr rfl
  · intro r hr
    rw [proctoring_update_verified_name_task] at hr
    rcases hap : mostRecent (approvedMatch puser_id) db with _ | a
    · rw [hap] at hr
      rcases hpr : mostRecent (proctoredAttemptMatch puser_id pattempt_id) db with _ | x
      · rw [hpr] at hr
        split_ifs at hr with hnames
        · rcases List.mem_append.mp hr with hr | hr
          · exact h r hr
          · obtain rfl : r = _ := List.mem_singleton.mp hr
            exact Or.inl rfl
        · exact h r hr
      · rw [hpr] at hr
        simp only [List.mem_map] at hr
        obtain ⟨y, hy, rfl⟩ := hr
        exact setStatusById_exclusive _ _ _ (h y hy)
    · rw [hap] at hr
      exact h r hr
  · intro db2 hok r hr
    rw [create_verified_name] at hok
    split_ifs at hok with hboth hvn hpn
    cases hok
    rcases List.mem_append.mp hr with hr | hr
    · exact h r hr
    · obtain rfl : r = _ := List.mem_singleton.mp hr
      rw [attemptIdsExclusive]
      by_cases hv : cvid = none
      · exact Or.inl hv
      · right
        rcases hp : cpid with _ | z
        · rfl
        · exact absurd ⟨Option.isSome_iff_ne_none.mpr hv, by rw [hp]; rfl⟩ hboth
  · intro db2 hok r hr
    rw [update_verification_attempt_id] at hok
    rcases hm : mostRecent (userMatch uuser_id) db with _ | m
    · simp only [hm] at hok
      cases hok
    · simp only [hm] at hok
      have hm_mem : m ∈ db ∧ userMatch uuser_id m = true := by
        obtain ⟨k, hk, hget, hp, _⟩ := mostRecent_spec (userMatch uuser_id) db m hm
        exact ⟨hget ▸ List.get_mem db k hk, hp⟩
      split_ifs at hok with hlinked
      · cases hok
        rcases List.mem_append.mp hr with hr | hr
        · exact h r hr
        · obtain rfl : r = _ := List.mem_singleton.mp hr
          exact Or.inr rfl
      · cases hok
        simp only [List.mem_map] at hr
        obtain ⟨y, hy, rfl⟩ := hr
        rw [setVerificationAttemptIdById]
        split_ifs with hid
        · have hym : y = m :=
            List.inj_on_of_nodup_map hwf hy hm_mem.1 hid
          subst hym
          push_neg at hlinked
          exact Or.inr (Option.not_isSome_iff_eq_none.mp hlinked.2)
        · exact h y hy

/-- Witness for C2: on the empty store, the IDV handler creates a record
linked only to the IDV attempt, and that record satisfies the
mutual-exclusion invariant. -/
theorem C2_witness :
    attemptIdsExclusive
      { id := 0, user_id := 2, verified_name := "Jon Doe", profile_name := "Jonathan Doe",
        verification_attempt_id := some 1, proctored_exam_attempt_id := none,
        status := VerifiedNameStatus.pending } :=
  (C2_mutual_exclusion [] 1 2 VerifiedNameStatus.pending "Jon Doe" "Jonathan Doe"
      1 2 VerifiedNameStatus.pending "Jon Doe" "Jonathan Doe"
      2 "Jon Doe" "Jonathan Doe" none none VerifiedNameStatus.pending
      2 1 (by simp) (by simp)).1 _ (by decide)

theorem idvAttach_names (user_id attempt_id : Nat) (photo_id_name : String)
    (r : VerifiedName) :
    (idvAttach user_id photo_id_name attempt_id r).verified_name = r.verified_name ∧
    (idvAttach user_id photo_id_name attempt_id r).profile_name = r.profile_name := by
  rw [idvAttach]
  split_ifs <;> exact ⟨rfl, rfl⟩

theorem idvSetStatus_names (user_id attempt_id : Nat) (photo_id_name : String)
    (s : VerifiedNameStatus) (r : VerifiedName) :
    (idvSetStatus user_id photo_id_name attempt_id s r).verified_name = r.verified_name ∧
    (idvSetStatus user_id photo_id_name attempt_id s r).profile_name = r.profile_name := by
  rw [idvSetStatus]
  split_ifs <;> exact ⟨rfl, rfl⟩

theorem setStatusById_names (targetId : Nat) (s : VerifiedNameStatus) (r : VerifiedName) :
    (setStatusById targetId s r).verified_name = r.verified_name ∧
    (setStatusById targetId s r).profile_name = r.profile_name := by
  rw [setStatusById]
  split_ifs <;> exact ⟨rfl, rfl⟩

/-- Counterexample to claim C3 as stated: the IDV handler's creation
branch copies `photo_id_name` and `full_name` into the new record with
no emptiness check, so an IDV event carrying an empty `photo_id_name`
(against a user with no matching record) creates a record whose
`verified_name` is the empty string. -/
theorem C3_counterexample :
    ∃ r ∈ (idv_update_verified_name_task [] 7 1 VerifiedNameStatus.submitted ""
      "Full Name").db, r.verified_name = "" := by
  decide

/-- Claim C3, amended: records created by `create_verified_name` and by
the proctoring handler's creation branch always have non-empty
`verified_name` and `profile_name`; records created by the IDV
handler's creation branch have non-empty names provided the event's
`photo_id_name` and `full_name` are themselves non-empty (the code
performs no emptiness check on that path).  Stated as preservation: a
store whose records all have non-empty names keeps that property. -/
theorem C3_nonempty_names (db : List VerifiedName)
    (attempt_id user_id : Nat) (s : VerifiedNameStatus) (photo_id_name full_name : String)
    (pattempt_id puser_id : Nat) (ps : VerifiedNameStatus)
    (pfull_name pprofile_name : String)
    (cuser_id : Nat) (cverified_name cprofile_name : String)
    (cvid cpid : Option Nat) (cs : VerifiedNameStatus)
    (h : ∀ r ∈ db, ¬ r.verified_name = "" ∧ ¬ r.profile_name = "") :
    (∀ db2, create_verified_name db cuser_id cverified_name cprofile_name cvid cpid cs =
        Except.ok db2 → ∀ r ∈ db2, ¬ r.verified_name = "" ∧ ¬ r.profile_name = "") ∧
    (∀ r ∈ (proctoring_update_verified_name_task db pattempt_id puser_id ps pfull_name
        pprofile_name).db, ¬ r.verified_name = "" ∧ ¬ r.profile_name = "") ∧
    (¬ photo_id_name = "" → ¬ full_name = "" →
      ∀ r ∈ (idv_update_verified_name_task db attempt_id user_id s photo_id_name
        full_name).db, ¬ r.verified_name = "" ∧ ¬ r.profile_name = "") := by
  refine ⟨?_, ?_, ?_⟩
  · intro db2 hok r hr
    rw [create_verified_name] at hok
    split_ifs at hok with hboth hvn hpn
    cases hok
    rcases List.mem_append.mp hr with hr | hr
    · exact h r hr
    · obtain rfl : r = _ := List.mem_singleton.mp hr
      exact ⟨hvn, hpn⟩
  · intro r hr
    rw [proctoring_update_verified_name_task] at hr
    rcases hap : mostRecent (approvedMatch puser_id) db with _ | a
    · rw [hap] at hr
      rcases hpr : mostRecent (proctoredAttemptMatch puser_id pattempt_id) db with _ | x
      · rw [hpr] at hr
        split_ifs at hr with hnames
        · rcases List.mem_append.mp hr with hr | hr
          · exact h r hr
          · obtain rfl : r = _ := List.mem_singleton.mp hr
            exact ⟨hnames.1, hnames.2⟩
        · exact h r hr
      · rw [hpr] at hr
        simp only [List.mem_map] at hr
        obtain ⟨y, hy, rfl⟩ := hr
        rw [(setStatusById_names x.id ps y).1, (setStatusById_names x.id ps y).2]
        exact h y hy
    · rw [hap] at hr
      exact h r hr
  · intro hphoto hfull r hr
    rw [idv_update_verified_name_task] at hr
    split_ifs at hr with hne
    · simp only [List.mem_map] at hr
      obtain ⟨y1, ⟨y, hy, rfl⟩, rfl⟩ := hr
      rw [(idvSetStatus_names user_id attempt_id photo_id_name s _).1,
        (idvSetStatus_names user_id attempt_id photo_id_name s _).2,
        (idvAttach_names user_id attempt_id photo_id_name y).1,
        (idvAttach_names user_id attempt_id photo_id_name y).2]
      exact h y hy
    · rcases List.mem_append.mp hr with hr | hr
      · exact h r hr
      · obtain rfl : r = _ := List.mem_singleton.mp hr
        exact ⟨hphoto, hfull⟩

/-- Witness for the amended C3 on the empty store: the record created by
the IDV handler for a non-empty photo id name and full name has
non-empty names. -/
theorem C3_witness :
    ¬ ({ id := 0, user_id := 1, verified_name := "Jon Doe", profile_name := "Jonathan Doe",
         verification_attempt_id := some 7, proctored_exam_attempt_id := none,
         status := VerifiedNameStatus.submitted } : VerifiedName).verified_name = "" ∧
    ¬ ({ id := 0, user_id := 1, verified_name := "Jon Doe", profile_name := "Jonathan Doe",
         verification_attempt_id := some 7, proctored_exam_attempt_id := none,
         status := VerifiedNameStatus.submitted } : VerifiedName).profile_name = "" :=
  (C3_nonempty_names [] 7 1 VerifiedNameStatus.submitted "Jon Doe" "Jonathan Doe"
      7 1 VerifiedNameStatus.submitted "Jon Doe" "Jonathan Doe"
      1 "Jon Doe" "Jonathan Doe" none none VerifiedNameStatus.pending
      (by simp)).2.2 (by decide) (by decide) _ (by decide)

theorem nodup_ids_get_ne (db : List VerifiedName) (hwf : (db.map VerifiedName.id).Nodup)
    (j k : Nat) (hj : j < db.length) (hk : k < db.length) (hjk : j ≠ k) :
    ¬ (db.get ⟨j, hj⟩).id = (db.get ⟨k, hk⟩).id := by
  intro hcon
  simp only [List.get_eq_getElem] at hcon
  have hj2 : j < (db.map VerifiedName.id).length := by simpa using hj
  have hk2 : k < (db.map VerifiedName.id).length := by simpa using hk
  have hmapeq : (db.map VerifiedName.id).get ⟨j, hj2⟩ =
      (db.map VerifiedName.id).get ⟨k, hk2⟩ := by
    simp only [List.get_eq_getElem, List.getElem_map]
    exact hcon
  exact hjk (by simpa using hwf.get_inj_iff.mp hmapeq)

/-- Claim C8: `create_verified_name` fails with the multiple-attempt-ids
error when both attempt ids are given, fails with the empty-string error
naming the empty field when a name is empty, and otherwise inserts
exactly one new record (on failure the store is untouched, as the
operation returns an error instead of a new store). -/
theorem C8_create_verified_name_validation (db : List VerifiedName) (user_id : Nat)
    (verified_name profile_name : String) (vid pid : Option Nat)
    (s : VerifiedNameStatus) :
    (vid.isSome ∧ pid.isSome →
      create_verified_name db user_id verified_name profile_name vid pid s =
        Except.error NameAffirmationError.multipleAttemptIds) ∧
    (¬ (vid.isSome ∧ pid.isSome) → verified_name = "" →
      create_verified_name db user_id verified_name profile_name vid pid s =
        Except.error (NameAffirmationError.emptyString "verified_name")) ∧
    (¬ (vid.isSome ∧ pid.isSome) → ¬ verified_name = "" → profile_name = "" →
      create_verified_name db user_id verified_name profile_name vid pid s =
        Except.error (NameAffirmationError.emptyString "profile_name")) ∧
    (¬ (vid.isSome ∧ pid.isSome) → ¬ verified_name = "" → ¬ profile_name = "" →
      create_verified_name db user_id verified_name profile_name vid pid s =
        Except.ok (db ++ [{ id := nextId db, user_id := user_id,
                            verified_name := verified_name,
                            profile_name := profile_name,
                            verification_attempt_id := vid,
                            proctored_exam_attempt_id := pid,
                            status := s }])) := by
  refine ⟨?_, ?_, ?_, ?_⟩
  · intro hboth
    rw [create_verified_name, if_pos hboth]
  · intro hboth hvn
    rw [create_verified_name, if_neg hboth, if_pos hvn]
  · intro hboth hvn hpn
    rw [create_verified_name, if_neg hboth, if_neg hvn, if_pos hpn]
  · intro hboth hvn hpn
    rw [create_verified_name, if_neg hboth, if_neg hvn, if_neg hpn]

/-- Witness for C8: the three failures and the success at concrete
inputs. -/
theorem C8_witness :
    create_verified_name [] 1 "Jon Doe" "Jonathan Doe" (some 123) (some 456)
        VerifiedNameStatus.pending =
      Except.error NameAffirmationError.multipleAttemptIds ∧
    create_verified_name [] 1 "" "Jonathan Doe" none none VerifiedNameStatus.pending =
      Except.error (NameAffirmationError.emptyString "verified_name") ∧
    create_verified_name [] 1 "Jon Doe" "" none none VerifiedNameStatus.pending =
      Except.error (NameAffirmationError.emptyString "profile_name") ∧
    create_verified_name [] 1 "Jon Doe" "Jonathan Doe" (some 123) none
        VerifiedNameStatus.pending =
      Except.ok [{ id := 0, user_id := 1, verified_name := "Jon Doe",
                   profile_name := "Jonathan Doe", verification_attempt_id := some 123,
                   proctored_exam_attempt_id := none,
                   status := VerifiedNameStatus.pending }] :=
  ⟨(C8_create_verified_name_validation [] 1 "Jon Doe" "Jonathan Doe" (some 123) (some 456)
      VerifiedNameStatus.pending).1 (by decide),
   (C8_create_verified_name_validation [] 1 "" "Jonathan Doe" none none
      VerifiedNameStatus.pending).2.1 (by decide) rfl,
   (C8_create_verified_name_validation [] 1 "Jon Doe" "" none none
      VerifiedNameStatus.pending).2.2.1 (by decide) (by decide) rfl,
   (C8_create_verified_name_validation [] 1 "Jon Doe" "Jonathan Doe" (some 123) none
      VerifiedNameStatus.pending).2.2.2 (by decide) (by decide) (by decide)⟩

/-- Claim C9: `update_verification_attempt_id` fails with the
does-not-exist error when the user has no records; when the user's most
recently created record has neither attempt id set, that record (at its
position `k`) gets `verification_attempt_id` set in place, every other
record is untouched and the record count is unchanged; when it already
has either attempt id set, a new record copying its `verified_name`,
`profile_name` and `status` with the new `verification_attempt_id` is
appended (record count grows by exactly one). -/
theorem C9_update_verification_attempt_id_spec (db : List VerifiedName)
    (user_id attempt_id : Nat) (hwf : (db.map VerifiedName.id).Nodup) :
    ((∀ r ∈ db, ¬ r.user_id = user_id) →
      update_verification_attempt_id db user_id attempt_id =
        Except.error NameAffirmationError.doesNotExist) ∧
    (∀ m, mostRecent (userMatch user_id) db = some m →
      ((m.verification_attempt_id = none ∧ m.proctored_exam_attempt_id = none →
        ∃ db2, update_verification_attempt_id db user_id attempt_id = Except.ok db2 ∧
          db2.length = db.length ∧
          ∃ k, ∃ hk : k < db.length, db.get ⟨k, hk⟩ = m ∧
            db2[k]? = some { m with verification_attempt_id := some attempt_id } ∧
            ∀ j, (hj : j < db.length) → j ≠ k → db2[j]? = some (db.get ⟨j, hj⟩)) ∧
       (m.verification_attempt_id.isSome ∨ m.proctored_exam_attempt_id.isSome →
        update_verification_attempt_id db user_id attempt_id =
          Except.ok (db ++ [{ id := nextId db, user_id := user_id,
                              verified_name := m.verified_name,
                              profile_name := m.profile_name,
                              verification_attempt_id := some attempt_id,
                              proctored_exam_attempt_id := none,
                              status := m.status }])))) := by
  refine ⟨?_, ?_⟩
  · intro hnone
    have hm : mostRecent (userMatch user_id) db = none :=
      (mostRecent_eq_none_iff _ db).mpr
        (fun r hr => by simpa [userMatch] using hnone r hr)
    simp [update_verification_attempt_id, hm]
  · intro m hm
    obtain ⟨k, hk, hget, _, _⟩ := mostRecent_spec (userMatch user_id) db m hm
    constructor
    · intro hun
      have hcond : ¬ (m.verification_attempt_id.isSome = true ∨
          m.proctored_exam_attempt_id.isSome = true) := by
        simp [hun.1, hun.2]
      have heq : update_verification_attempt_id db user_id attempt_id =
          Except.ok (db.map (setVerificationAttemptIdById m.id attempt_id)) := by
        simp only [update_verification_attempt_id, hm]
        rw [if_neg hcond]
      refine ⟨_, heq, by simp, k, hk, hget, ?_, ?_⟩
      · have hk0 : db[k]? = some (db.get ⟨k, hk⟩) := by
          simp [List.getElem?_eq_getElem hk]
        simp only [List.getElem?_map, hk0, Option.map_some]
        rw [hget]
        simp [setVerificationAttemptIdById]
      · intro j hj hjk
        have hj0 : db[j]? = some (db.get ⟨j, hj⟩) := by
          simp [List.getElem?_eq_getElem hj]
        simp only [List.getElem?_map, hj0, Option.map_some]
        have hne2 := nodup_ids_get_ne db hwf j k hj hk hjk
        rw [hget] at hne2
        simp only [List.get_eq_getElem] at hne2
        simp [setVerificationAttemptIdById, hne2]
    · intro hlinked
      simp only [update_verification_attempt_id, hm]
      rw [if_pos hlinked]

/-- Witness for C9: the three scenarios at concrete inputs — no records,
an unlinked most-recent record mutated in place (count unchanged), and a
linked most-recent record copied into a new record (count grows to 2). -/
theorem C9_witness :
    update_verification_attempt_id [] 1 789 =
      Except.error NameAffirmationError.doesNotExist ∧
    (∃ db2, update_verification_attempt_id
        [{ id := 0, user_id := 1, verified_name := "Jon Doe",
           profile_name := "Jonathan Doe", verification_attempt_id := none,
           proctored_exam_attempt_id := none,
           status := VerifiedNameStatus.pending }] 1 789 = Except.ok db2 ∧
      db2.length = 1 ∧
      db2[0]? = some { id := 0, user_id := 1, verified_name := "Jon Doe",
                       profile_name := "Jonathan Doe",
                       verification_attempt_id := some 789,
                       proctored_exam_attempt_id := none,
                       status := VerifiedNameStatus.pending }) ∧
    update_verification_attempt_id
        [{ id := 0, user_id := 1, verified_name := "Jon Doe",
           profile_name := "Jonathan Doe", verification_attempt_id := some 123,
           proctored_exam_attempt_id := none,
           status := VerifiedNameStatus.pending }] 1 789 =
      Except.ok
        [{ id := 0, user_id := 1, verified_name := "Jon Doe",
           profile_name := "Jonathan Doe", verification_attempt_id := some 123,
           proctored_exam_attempt_id := none, status := VerifiedNameStatus.pending },
         { id := 1, user_id := 1, verified_name := "Jon Doe",
           profile_name := "Jonathan Doe", verification_attempt_id := some 789,
           proctored_exam_attempt_id := none,
           status := VerifiedNameStatus.pending }] := by
  refine ⟨?_, ?_, ?_⟩
  · exact (C9_update_verification_attempt_id_spec [] 1 789 (by simp)).1 (by simp)
  · obtain ⟨db2, heq, hlen, k, hk, hget, hupd, _⟩ :=
      ((C9_update_verification_attempt_id_spec
        [{ id := 0, user_id := 1, verified_name := "Jon Doe",
           profile_name := "Jonathan Doe", verification_attempt_id := none,
           proctored_exam_attempt_id := none,
           status := VerifiedNameStatus.pending }] 1 789 (by simp)).2
        { id := 0, user_id := 1, verified_name := "Jon Doe",
          profile_name := "Jonathan Doe", verification_attempt_id := none,
          proctored_exam_attempt_id := none, status := VerifiedNameStatus.pending }
        (by decide)).1 ⟨rfl, rfl⟩
    have hk0 : k = 0 := by
      have : k < 1 := by simpa using hk
      omega
    subst hk0
    exact ⟨db2, heq, by simpa using hlen, hupd⟩
  · exact ((C9_update_verification_attempt_id_spec
      [{ id := 0, user_id := 1, verified_name := "Jon Doe",
         profile_name := "Jonathan Doe", verification_attempt_id := some 123,
         proctored_exam_attempt_id := none,
         status := VerifiedNameStatus.pending }] 1 789 (by simp)).2
      { id := 0, user_id := 1, verified_name := "Jon Doe",
        profile_name := "Jonathan Doe", verification_attempt_id := some 123,
        proctored_exam_attempt_id := none, status := VerifiedNameStatus.pending }
      (by decide)).2 (Or.inl rfl)

end NameAffirmation
